import Mathlib

/-!
Shallow embedding of the Atlas research-assistant pipeline
(`src/agents.py`, `src/tools.py`, `src/graph.py`, `src/main.py`).

The language model and the web search backend are external services;
they are modelled as oracle functions passed in as parameters.
Python strings are modelled as Lean `String`, Python `str.strip(chars)`
as removal of leading and trailing characters from the given set, and
Python `str.splitlines()` as splitting on line terminators.
-/

namespace Atlas

/-- Characters removed by Python `str.strip()` with no argument
(the ASCII whitespace characters). -/
def isPyWhitespace (c : Char) : Bool :=
  c = ' ' || c = '\t' || c = '\n' || c = '\r' || c = Char.ofNat 11 || c = Char.ofNat 12

/-- The character set of Python `str.strip("- ")`: the dash and the space. -/
def isDashSpace (c : Char) : Bool :=
  c = '-' || c = ' '

/-- Python `str.strip(chars)`: remove the longest leading and trailing runs
of characters satisfying `p` from both ends of the list. -/
def stripBoth (p : Char → Bool) (l : List Char) : List Char :=
  ((l.dropWhile p).reverse.dropWhile p).reverse

/-- Python `s.strip()` (default whitespace stripping). -/
def pyStrip (s : String) : String :=
  ⟨stripBoth isPyWhitespace s.data⟩

/-- Python `s.strip("- ")`: strips every leading and trailing run of
dash and space characters, from both ends. -/
def stripDashSpace (s : String) : String :=
  ⟨stripBoth isDashSpace s.data⟩

/-- Helper for `splitlines`: walks the character list accumulating the
current line (in reverse); `\n`, `\r\n` and `\r` all terminate a line,
and a final line without a terminator is emitted, while a trailing
terminator does not produce an extra empty line (Python semantics). -/
def splitlinesAux : List Char → List Char → List String
  | [], acc => if acc.isEmpty then [] else [⟨acc.reverse⟩]
  | '\r' :: '\n' :: rest, acc => (⟨acc.reverse⟩ : String) :: splitlinesAux rest []
  | '\n' :: rest, acc => (⟨acc.reverse⟩ : String) :: splitlinesAux rest []
  | '\r' :: rest, acc => (⟨acc.reverse⟩ : String) :: splitlinesAux rest []
  | c :: rest, acc => splitlinesAux rest (c :: acc)

/-- Python `s.splitlines()`. -/
def splitlines (s : String) : List String :=
  splitlinesAux s.data []

/-- `_extract_lines` of `src/agents.py` lines 38-41:
`lines = [l.strip("- ") for l in text.splitlines() if l.strip()]`
followed by `return [l for l in lines if len(l) > 2]`. -/
def extract_lines (text : String) : List String :=
  let lines := ((splitlines text).filter (fun l => decide (pyStrip l ≠ ""))).map stripDashSpace
  lines.filter (fun l => decide (2 < l.length))

/-- A search hit: `{title, link, snippet}` dictionaries of `src/tools.py`
and `src/agents.py`; all fields are plain strings (possibly empty). -/
structure Hit where
  title : String
  link : String
  snippet : String
deriving DecidableEq, Repr

/-- One entry of `search_results`: `{"subquestion": sq, "results": hits}`
(`src/agents.py` line 71). -/
structure ResultBlock where
  subquestion : String
  results : List Hit
deriving DecidableEq, Repr

/-- A language-model invocation with a system message and a human message
(the `llm.invoke([sys, human])` calls of `synthesizer_node`). -/
structure LlmCall where
  system : String
  human : String
deriving DecidableEq, Repr

/-- The argument dictionary of the tool call
`google_search.invoke({"query": sq, "num_results": 5})`
(`src/agents.py` line 68). -/
structure ToolInvocation where
  query : String
  num_results : Int
deriving DecidableEq, Repr

/-- Result of `planner_node`: whether the model was invoked, and the
`subquestions` value written into the state. -/
structure PlannerResult where
  calledModel : Bool
  subquestions : List String
deriving DecidableEq, Repr

/-- The planner prompt built at `src/agents.py` lines 50-55; `question`
here is the already-stripped question variable of `planner_node`. -/
def planner_prompt (question : String) : String :=
  "You are a research planner. Break the following question into 3-6 focused,\n" ++
  "non-overlapping sub-questions that would help a search agent retrieve\n" ++
  "the most relevant information.\n\nQuestion:\n" ++ question ++ "\n\n" ++
  "Return each sub-question as a separate line without numbering."

/-- `planner_node` of `src/agents.py` lines 44-59. `llm` maps the prompt
text to the model response text (`resp.content`). An empty or
whitespace-only question short-circuits to `[]` without a model call. -/
def planner_node (llm : String → String) (question : String) : PlannerResult :=
  let q := pyStrip question
  if q = "" then ⟨false, []⟩
  else ⟨true, extract_lines (llm (planner_prompt q))⟩

/-- Loop body of `search_node` (`src/agents.py` lines 66-71): the tool
invocation made for a sub-question, and the result block appended.
`call` models `google_search.invoke`; an exception is an `Except.error`
carrying `str(e)`. -/
def search_sq (call : ToolInvocation → Except String (List Hit)) (sq : String) :
    ToolInvocation × ResultBlock :=
  let inv : ToolInvocation := ⟨sq, 5⟩
  match call inv with
  | .ok hits => (inv, ⟨sq, hits⟩)
  | .error e => (inv, ⟨sq, [⟨"Error", "", e⟩]⟩)

/-- `search_node` of `src/agents.py` lines 62-72: the `search_results`
value (the `aggregated` list). -/
def search_node (call : ToolInvocation → Except String (List Hit))
    (subqs : List String) : List ResultBlock :=
  (subqs.map (search_sq call)).map Prod.snd

/-- The sequence of tool invocations `search_node` performs, in order. -/
def search_invocations (call : ToolInvocation → Except String (List Hit))
    (subqs : List String) : List ToolInvocation :=
  (subqs.map (search_sq call)).map Prod.fst

/-- The hit filter of `src/agents.py` line 108:
`if r.get('title') or r.get('snippet')` (Python string truthiness). -/
def hitKeep (r : Hit) : Bool :=
  decide (r.title ≠ "") || decide (r.snippet ≠ "")

/-- The context line of `src/agents.py` line 108:
`f"- {r.get('title', '')}: {r.get('snippet', '')}"`. -/
def hitLine (r : Hit) : String :=
  "- " ++ r.title ++ ": " ++ r.snippet

/-- The `has_results` flag of `src/agents.py` lines 81-87: true when some
block has a non-empty `results` list. -/
def has_results (srs : List ResultBlock) : Bool :=
  srs.any (fun b => decide (b.results ≠ []))

/-- The `lines` list built for one block (`src/agents.py` line 108):
first 5 results, filtered to hits with non-empty title or snippet. -/
def blockLines (b : ResultBlock) : List String :=
  ((b.results.take 5).filter hitKeep).map hitLine

/-- The chunk a block contributes to `context_chunks`
(`src/agents.py` lines 104-111), or `none` when the block is skipped. -/
def blockChunk (b : ResultBlock) : Option String :=
  if b.results = [] then none
  else
    let lines := blockLines b
    if lines = [] then none
    else some ("Sub-question: " ++ b.subquestion ++ "\n" ++ String.intercalate "\n" lines)

/-- The `context_chunks` list of `src/agents.py` lines 103-111. -/
def context_chunks (srs : List ResultBlock) : List String :=
  srs.filterMap blockChunk

/-- The model call issued on Path A (`src/agents.py` lines 89-98),
written out literally as at that call site. -/
def pathA_call (q : String) : LlmCall :=
  ⟨"You are a senior research analyst. Answer the question using your internal knowledge. If sources are unavailable, don\x27t fabricate citations.",
   "Main Question:\n" ++ q ++ "\n\nWrite the final report."⟩

/-- The model call issued on Path B (`src/agents.py` lines 113-122),
written out literally as at that call site. -/
def pathB_call (q : String) : LlmCall :=
  ⟨"You are a senior research analyst. Answer the question using your internal knowledge. If sources are unavailable, don\x27t fabricate citations.",
   "Main Question:\n" ++ q ++ "\n\nWrite the final report."⟩

/-- The model call issued on Path C (`src/agents.py` lines 126-137),
with the joined context block interpolated into the human message. -/
def pathC_call (q context : String) : LlmCall :=
  ⟨"You are a senior research analyst. Synthesize a clear, structured report\nanswering the main question using the provided context. Cite URLs where useful.\nUse concise sections and bullet points when appropriate.",
   "Main Question:\n" ++ q ++ "\n\nContext from searches:\n" ++ context ++ "\n\nWrite the final report."⟩

/-- The branching of `synthesizer_node` (`src/agents.py` lines 75-140),
returning the model call it issues; the `final_report` is the model
response to this call. -/
def synthesizer_call (question : String) (srs : List ResultBlock) : LlmCall :=
  if has_results srs = false then pathA_call question
  else
    let chunks := context_chunks srs
    if chunks = [] then pathB_call question
    else pathC_call question (String.intercalate "\n\n" chunks)

/-- The session state of `src/graph.py` (`AtlasState`), with the defaults
used by the `state.get` calls for fields not yet produced. -/
structure AtlasState where
  question : String
  subquestions : List String
  search_results : List ResultBlock
  final_report : String
deriving Repr

/-- The compiled pipeline `planner -> search -> synthesizer`
(`src/graph.py` lines 12-22) as invoked by `run` of `src/main.py`:
each node's returned mapping is merged into the state in sequence. -/
def run (plannerLlm : String → String) (call : ToolInvocation → Except String (List Hit))
    (synthLlm : LlmCall → String) (question : String) : AtlasState :=
  let subqs := (planner_node plannerLlm question).subquestions
  let srs := search_node call subqs
  ⟨question, subqs, srs, synthLlm (synthesizer_call question srs)⟩

/-- Search configuration read from the environment in `src/tools.py`
lines 6-7; `none` models an unset variable. -/
structure SearchConfig where
  apiKey : Option String
  cseId : Option String

/-- Python truthiness of an optional string: `None` and `""` are falsy. -/
def truthy : Option String → Bool
  | none => false
  | some s => decide (s ≠ "")

/-- One item of the JSON `items` array (`src/tools.py` lines 25-32);
each field is optional, defaulted to `""` by `it.get(k, "")`. -/
structure RawItem where
  title : Option String
  link : Option String
  snippet : Option String

/-- The result-count clamp of `src/tools.py` line 20:
`max(1, min(num_results, 10))`. -/
def clampNum (n : Int) : Int :=
  max 1 (min n 10)

/-- Observable outcome of `google_search`: the returned hit list, whether
a network request was performed, and the `num` parameter sent with the
request when one was made. -/
structure GSearchResult where
  hits : List Hit
  networkCalled : Bool
  sentNum : Option Int
deriving DecidableEq, Repr

/-- `google_search` of `src/tools.py` lines 9-36. `net` models the HTTP
request plus response parsing (`requests.get` .. `data.get("items", [])`);
`Except.error` models any exception raised inside the `try` block, which
the function swallows into an empty result list. Missing credentials
short-circuit to `[]` with no network call. -/
def google_search (cfg : SearchConfig) (net : String → Int → Except String (List RawItem))
    (query : String) (num_results : Int) : GSearchResult :=
  if truthy cfg.apiKey = false ∨ truthy cfg.cseId = false then ⟨[], false, none⟩
  else
    let nm := clampNum num_results
    match net query nm with
    | .error _ => ⟨[], true, some nm⟩
    | .ok items =>
        ⟨items.map (fun it => ⟨it.title.getD "", it.link.getD "", it.snippet.getD ""⟩),
         true, some nm⟩

/-- Spec-side single-pass description of the line extraction: a line is
dropped when it is blank or its trimmed form has length at most 2, and
otherwise contributes its trimmed form. -/
def keptLine (l : String) : Option String :=
  let t := stripDashSpace l
  if pyStrip l = "" ∨ t.length ≤ 2 then none else some t

/-- Spec-side description of the hits of a block that can contribute
context lines: among the first 5 results, those with non-empty title or
snippet. -/
def qualHits (b : ResultBlock) : List Hit :=
  (b.results.take 5).filter hitKeep

/-- Spec-side description of the chunk a block contributes: present
exactly when the block has a qualifying hit among its first 5 results. -/
def specChunk (b : ResultBlock) : Option String :=
  if qualHits b = [] then none
  else some ("Sub-question: " ++ b.subquestion ++ "\n" ++
             String.intercalate "\n" ((qualHits b).map hitLine))

/-! ### Helper lemmas -/

lemma head?_dropWhile (p : Char → Bool) :
    ∀ (l : List Char) (c : Char), (l.dropWhile p).head? = some c → p c = false := by
  intro l
  induction l with
  | nil => intro c h; simp [List.dropWhile] at h
  | cons a t ih =>
    intro c h
    rw [List.dropWhile_cons] at h
    cases hpa : p a
    · rw [if_neg (by simp [hpa])] at h
      simp only [List.head?_cons, Option.some.injEq] at h
      rwa [← h]
    · rw [if_pos (by simp [hpa])] at h
      exact ih c h

lemma getLast?_dropWhile (p : Char → Bool) :
    ∀ (l : List Char), l.dropWhile p ≠ [] → (l.dropWhile p).getLast? = l.getLast? := by
  intro l
  induction l with
  | nil => simp
  | cons a t ih =>
    intro hne
    rw [List.dropWhile_cons] at hne ⊢
    cases hpa : p a
    · rw [if_neg (by simp [hpa])]
    · rw [if_pos (by simp [hpa])] at hne ⊢
      rw [ih hne]
      have htne : t ≠ [] := by
        intro h
        subst h
        simp [List.dropWhile] at hne
      cases t with
      | nil => exact absurd rfl htne
      | cons b u => simp [List.getLast?_cons_cons]

lemma stripBoth_head? (p : Char → Bool) (l : List Char) (c : Char)
    (h : (stripBoth p l).head? = some c) : p c = false := by
  unfold stripBoth at h
  rw [List.head?_reverse] at h
  have hne : (l.dropWhile p).reverse.dropWhile p ≠ [] := by
    intro hnil
    rw [hnil] at h
    simp at h
  rw [getLast?_dropWhile p _ hne, List.getLast?_reverse] at h
  exact head?_dropWhile p l c h

lemma stripBoth_getLast? (p : Char → Bool) (l : List Char) (c : Char)
    (h : (stripBoth p l).getLast? = some c) : p c = false := by
  unfold stripBoth at h
  rw [List.getLast?_reverse] at h
  exact head?_dropWhile p (l.dropWhile p).reverse c h

lemma stripBoth_decomp (p : Char → Bool) (l : List Char) :
    ∃ pre suf, l = pre ++ stripBoth p l ++ suf ∧
      (∀ c ∈ pre, p c = true) ∧ (∀ c ∈ suf, p c = true) := by
  refine ⟨l.takeWhile p, ((l.dropWhile p).reverse.takeWhile p).reverse, ?_, ?_, ?_⟩
  · have h1 : l.takeWhile p ++ l.dropWhile p = l := List.takeWhile_append_dropWhile p l
    have h2 : (l.dropWhile p).reverse.takeWhile p ++ (l.dropWhile p).reverse.dropWhile p =
        (l.dropWhile p).reverse := List.takeWhile_append_dropWhile p (l.dropWhile p).reverse
    have h3 := congrArg List.reverse h2
    rw [List.reverse_append, List.reverse_reverse] at h3
    calc l = l.takeWhile p ++ l.dropWhile p := h1.symm
      _ = l.takeWhile p ++ (((l.dropWhile p).reverse.dropWhile p).reverse ++
            ((l.dropWhile p).reverse.takeWhile p).reverse) := by rw [h3]
      _ = l.takeWhile p ++ stripBoth p l ++ ((l.dropWhile p).reverse.takeWhile p).reverse := by
            rw [List.append_assoc]; rfl
  · intro c hc
    exact List.mem_takeWhile_imp hc
  · intro c hc
    rw [List.mem_reverse] at hc
    exact List.mem_takeWhile_imp hc

lemma extract_lines_eq_filterMap (text : String) :
    extract_lines text = (splitlines text).filterMap keptLine := by
  unfold extract_lines
  induction splitlines text with
  | nil => rfl
  | cons a t ih =>
    by_cases h1 : pyStrip a = ""
    · simpa [keptLine, h1] using ih
    · by_cases h2 : (stripDashSpace a).length ≤ 2
      · have h2x : ¬ (2 < (stripDashSpace a).length) := not_lt.mpr h2
        simpa [keptLine, h1, h2, h2x] using ih
      · have h2x : 2 < (stripDashSpace a).length := not_le.mp h2
        simpa [keptLine, h1, h2, h2x] using ih

lemma mem_extract_lines_length (text : String) (s : String)
    (h : s ∈ extract_lines text) : 2 < s.length := by
  unfold extract_lines at h
  rw [List.mem_filter] at h
  simpa using h.2

lemma keptLine_eq_some (l s : String) (h : keptLine l = some s) :
    s = stripDashSpace l ∧ pyStrip l ≠ "" ∧ 2 < s.length := by
  unfold keptLine at h
  by_cases hc : pyStrip l = "" ∨ (stripDashSpace l).length ≤ 2
  · rw [if_pos hc] at h
    exact absurd h (by simp)
  · rw [if_neg hc] at h
    push_neg at hc
    simp only [Option.some.injEq] at h
    exact ⟨h.symm, hc.1, h ▸ hc.2⟩

lemma string_ne_empty_of_length (s : String) (h : 2 < s.length) : s.data ≠ [] := by
  intro hnil
  have : s.length = 0 := by
    show s.data.length = 0
    rw [hnil]
    rfl
  omega

lemma search_sq_fst (call : ToolInvocation → Except String (List Hit)) (sq : String) :
    (search_sq call sq).1 = ⟨sq, 5⟩ := by
  cases h : call ⟨sq, 5⟩ <;> simp [search_sq, h]

lemma search_sq_subquestion (call : ToolInvocation → Except String (List Hit)) (sq : String) :
    ((search_sq call sq).2).subquestion = sq := by
  cases h : call ⟨sq, 5⟩ <;> simp [search_sq, h]

lemma blockChunk_eq_specChunk : blockChunk = specChunk := by
  funext b
  unfold blockChunk specChunk blockLines qualHits
  by_cases hres : b.results = []
  · simp [hres]
  · rw [if_neg hres]
    by_cases hq : (b.results.take 5).filter hitKeep = []
    · simp [hq]
    · simp [hq]

/-! ### Claim theorems -/

/-- Claim C5: for every input sequence of N sub-questions, the Searcher
returns exactly N result blocks, in the same order, and the block at each
position carries exactly the sub-question at that position of the input. -/
theorem search_node_order_and_count (call : ToolInvocation → Except String (List Hit))
    (subqs : List String) :
    (search_node call subqs).length = subqs.length ∧
    (search_node call subqs).map ResultBlock.subquestion = subqs := by
  constructor
  · simp [search_node]
  · simp [search_node, List.map_map, Function.comp_def, search_sq_subquestion]

/-- Claim C3 is false as stated: an exception whose string representation
is empty yields a result block whose single synthetic hit has an empty
snippet, so the snippet is not always a non-empty error message. -/
theorem search_error_snippet_may_be_empty :
    ¬ (∀ (call : ToolInvocation → Except String (List Hit)) (subqs : List String)
        (i : Nat) (hi : i < subqs.length) (e : String),
        call ⟨subqs.get ⟨i, hi⟩, 5⟩ = .error e →
        (search_node call subqs)[i]? = some ⟨subqs.get ⟨i, hi⟩, [⟨"Error", "", e⟩]⟩ ∧
        e ≠ "") := by
  intro h
  exact (h (fun _ => .error "") ["alpha"] 0 (by decide) "" rfl).2 rfl

/-- Claim C3 (amended): when the search call for the sub-question at a
position raises, the Searcher does not abort: the result block at that
position carries that sub-question and exactly one hit whose title is
"Error", whose link is empty, and whose snippet is the string
representation of the exception (which may be empty). -/
theorem search_error_block_shape (call : ToolInvocation → Except String (List Hit))
    (subqs : List String) (i : Nat) (hi : i < subqs.length) (e : String)
    (hcall : call ⟨subqs.get ⟨i, hi⟩, 5⟩ = .error e) :
    (search_node call subqs)[i]? = some ⟨subqs.get ⟨i, hi⟩, [⟨"Error", "", e⟩]⟩ := by
  have h1 : subqs[i]? = some (subqs.get ⟨i, hi⟩) := List.getElem?_eq_getElem hi
  unfold search_node
  rw [List.getElem?_map, List.getElem?_map, h1]
  simp only [List.get_eq_getElem] at hcall
  simp [search_sq, hcall]

/-- Instance of `search_error_block_shape` at a concrete failing call. -/
theorem search_error_block_shape_inst :
    (search_node (fun _ => .error "boom") ["alpha"])[0]? =
      some ⟨"alpha", [⟨"Error", "", "boom"⟩]⟩ :=
  search_error_block_shape (fun _ => .error "boom") ["alpha"] 0 (by decide) "boom" rfl

/-- Claim C1 is false as stated: the Planner applies no upper bound of 6
to the extracted sub-questions; a model response with 7 usable lines
yields 7 sub-questions. -/
theorem planner_six_bound_fails :
    ¬ (∀ (llm : String → String) (q : String), pyStrip q ≠ "" →
        (planner_node llm q).subquestions.length ≤ 6) := by
  intro h
  have h7 := h (fun _ => "aaa\nbbb\nccc\nddd\neee\nfff\nggg") "What is light?" (by decide)
  have he : (planner_node (fun _ : String => "aaa\nbbb\nccc\nddd\neee\nfff\nggg")
      "What is light?").subquestions.length = 7 := by decide
  omega

/-- Claim C1 (amended): for every non-empty question and every model
response, the Planner's output length is at least 0 and at most the
number of lines of the response; no upper bound of 6 is enforced. -/
theorem planner_length_le_line_count (llm : String → String) (q : String)
    (h : pyStrip q ≠ "") :
    (planner_node llm q).subquestions.length ≤
      (splitlines (llm (planner_prompt (pyStrip q)))).length := by
  have hsub : (planner_node llm q).subquestions =
      extract_lines (llm (planner_prompt (pyStrip q))) := by
    simp [planner_node, if_neg h]
  rw [hsub]
  unfold extract_lines
  refine le_trans (List.length_filter_le _ _) ?_
  rw [List.length_map]
  exact List.length_filter_le _ _

/-- Instance of `planner_length_le_line_count` at a concrete response. -/
theorem planner_length_le_line_count_inst :
    (planner_node (fun _ : String => "abcd") "x").subquestions.length ≤
      (splitlines ((fun _ : String => "abcd") (planner_prompt (pyStrip "x")))).length :=
  planner_length_le_line_count _ _ (by decide)

/-- Claim C2: every sub-question the Planner outputs is a non-empty
trimmed line of length greater than 2, and the output is exactly the list
of trimmed lines of the model response with blank lines and lines whose
trimmed form has length at most 2 dropped. -/
theorem planner_output_lines_filtered (llm : String → String) (q : String)
    (h : pyStrip q ≠ "") :
    (∀ s ∈ (planner_node llm q).subquestions, s ≠ "" ∧ 2 < s.length) ∧
    (planner_node llm q).subquestions =
      (splitlines (llm (planner_prompt (pyStrip q)))).filterMap keptLine := by
  have hsub : (planner_node llm q).subquestions =
      extract_lines (llm (planner_prompt (pyStrip q))) := by
    simp [planner_node, if_neg h]
  constructor
  · intro s hs
    rw [hsub] at hs
    have hlen := mem_extract_lines_length _ s hs
    refine ⟨?_, hlen⟩
    intro hempty
    rw [hempty] at hlen
    exact absurd hlen (by decide)
  · rw [hsub, extract_lines_eq_filterMap]

/-- Instance of `planner_output_lines_filtered` at a concrete response
with a bullet line, a blank line, a short line, and a noise line. -/
theorem planner_output_lines_filtered_inst :
    (planner_node (fun _ : String => "- What is A?\n\nok\n- - ") "Q").subquestions =
      (splitlines ((fun _ : String => "- What is A?\n\nok\n- - ")
        (planner_prompt (pyStrip "Q")))).filterMap keptLine :=
  (planner_output_lines_filtered _ _ (by decide)).2

/-- Claim C10: every sub-question the Planner returns begins and ends with
a character other than a dash or a space: the trimming removes every
leading and trailing run of dash and space characters from both ends of
the source line, not only a leading bullet marker. -/
theorem planner_output_strip_both_ends (llm : String → String) (q : String) :
    ∀ s ∈ (planner_node llm q).subquestions,
      s.data ≠ [] ∧
      (∀ c, s.data.head? = some c → isDashSpace c = false) ∧
      (∀ c, s.data.getLast? = some c → isDashSpace c = false) ∧
      (∃ l ∈ splitlines (llm (planner_prompt (pyStrip q))), ∃ pre suf,
        l.data = pre ++ s.data ++ suf ∧
        (∀ c ∈ pre, isDashSpace c = true) ∧ (∀ c ∈ suf, isDashSpace c = true)) := by
  intro s hs
  by_cases hq : pyStrip q = ""
  · simp [planner_node, hq] at hs
  · have hsub : (planner_node llm q).subquestions =
        (splitlines (llm (planner_prompt (pyStrip q)))).filterMap keptLine := by
      simp [planner_node, if_neg hq, extract_lines_eq_filterMap]
    rw [hsub, List.mem_filterMap] at hs
    obtain ⟨l, hl, hkept⟩ := hs
    obtain ⟨hseq, -, hlen⟩ := keptLine_eq_some l s hkept
    have hdata : s.data = stripBoth isDashSpace l.data := by rw [hseq]; rfl
    refine ⟨string_ne_empty_of_length s hlen, ?_, ?_, ?_⟩
    · intro c hc
      rw [hdata] at hc
      exact stripBoth_head? _ _ _ hc
    · intro c hc
      rw [hdata] at hc
      exact stripBoth_getLast? _ _ _ hc
    · obtain ⟨pre, suf, hdecomp, hpre, hsuf⟩ := stripBoth_decomp isDashSpace l.data
      exact ⟨l, hl, pre, suf, by rw [hdata]; exact hdecomp, hpre, hsuf⟩

/-- Instance of `planner_output_strip_both_ends` at a concrete response:
the first and last characters of the extracted sub-question are neither
dashes nor spaces. -/
theorem planner_output_strip_both_ends_inst :
    isDashSpace 'W' = false ∧ isDashSpace '?' = false := by
  have h := planner_output_strip_both_ends (fun _ : String => "- What is A? -") "Q"
    "What is A?" (by decide)
  exact ⟨h.2.1 'W' (by decide), h.2.2.1 '?' (by decide)⟩

/-- Claim C4: when every result block has an empty results list (or there
are no blocks), or when per-block filtering leaves zero context chunks,
the Synthesizer issues the internal-knowledge model call whose human
message carries only the question; the Path B fallback issues exactly the
same model call as Path A. -/
theorem synthesizer_internal_mode (q : String) (srs : List ResultBlock)
    (h : (∀ b ∈ srs, b.results = []) ∨ context_chunks srs = []) :
    synthesizer_call q srs = pathA_call q ∧
    (synthesizer_call q srs).human =
      "Main Question:\n" ++ q ++ "\n\nWrite the final report." ∧
    pathB_call q = pathA_call q := by
  have hAB : pathB_call q = pathA_call q := rfl
  have hmain : synthesizer_call q srs = pathA_call q := by
    by_cases hr : has_results srs = false
    · simp [synthesizer_call, hr]
    · have hchunks : context_chunks srs = [] := by
        rcases h with h | h
        · exfalso
          apply hr
          simp only [has_results, List.any_eq_false, decide_eq_true_eq]
          intro b hb
          simp [h b hb]
        · exact h
      simp [synthesizer_call, hr, hchunks, hAB]
  exact ⟨hmain, by rw [hmain]; rfl, hAB⟩

/-- Instance of `synthesizer_internal_mode` for a single block with an
empty results list. -/
theorem synthesizer_internal_mode_inst :
    synthesizer_call "Q" [⟨"s", []⟩] = pathA_call "Q" :=
  (synthesizer_internal_mode "Q" [⟨"s", []⟩] (Or.inl (by decide))).1

/-- Claim C7 is false as stated: a hit with non-empty title or snippet
may sit beyond position 5 of its block, in which case the block yields no
context chunk and the Synthesizer falls back to the internal-knowledge
call instead of building any context text. -/
theorem synthesizer_context_hypothesis_fails :
    ¬ (∀ (q : String) (srs : List ResultBlock),
        (∃ b ∈ srs, ∃ r ∈ b.results, r.title ≠ "" ∨ r.snippet ≠ "") →
        ∃ c, synthesizer_call q srs = pathC_call q c) := by
  intro h
  obtain ⟨c, hc⟩ := h "Q"
    [⟨"tail", [⟨"", "", ""⟩, ⟨"", "", ""⟩, ⟨"", "", ""⟩, ⟨"", "", ""⟩, ⟨"", "", ""⟩,
      ⟨"T", "L", "S"⟩]⟩] (by decide)
  have hB : synthesizer_call "Q"
      [⟨"tail", [⟨"", "", ""⟩, ⟨"", "", ""⟩, ⟨"", "", ""⟩, ⟨"", "", ""⟩, ⟨"", "", ""⟩,
        ⟨"T", "L", "S"⟩]⟩] = pathB_call "Q" := by decide
  rw [hB] at hc
  have hs := congrArg LlmCall.system hc
  simp only [pathB_call, pathC_call] at hs
  exact absurd hs (by decide)

/-- Claim C7 (amended): when at least one block has a hit with non-empty
title or snippet among the first 5 entries of its results list, the
Synthesizer builds the context: one chunk per such block, consisting of a
"Sub-question: sq" line followed by the at most 5 hit lines from the
first 5 results, joined with a blank-line separator. -/
theorem synthesizer_context_structure (q : String) (srs : List ResultBlock)
    (h : ∃ b ∈ srs, ∃ r ∈ b.results.take 5, r.title ≠ "" ∨ r.snippet ≠ "") :
    synthesizer_call q srs =
      pathC_call q (String.intercalate "\n\n" (srs.filterMap specChunk)) ∧
    context_chunks srs = srs.filterMap specChunk ∧
    ∀ b ∈ srs, (qualHits b).length ≤ 5 ∧
      ((specChunk b).isSome ↔ ∃ r ∈ b.results.take 5, r.title ≠ "" ∨ r.snippet ≠ "") := by
  have hctx : context_chunks srs = srs.filterMap specChunk := by
    rw [context_chunks, blockChunk_eq_specChunk]
  obtain ⟨b0, hb0, r0, hr0, hq0⟩ := h
  have hkeep0 : hitKeep r0 = true := by
    rcases hq0 with h1 | h1 <;> simp [hitKeep, h1]
  have hqualne : qualHits b0 ≠ [] :=
    List.ne_nil_of_mem (List.mem_filter.mpr ⟨hr0, hkeep0⟩)
  have hc0 : specChunk b0 = some ("Sub-question: " ++ b0.subquestion ++ "\n" ++
      String.intercalate "\n" ((qualHits b0).map hitLine)) := by
    rw [specChunk, if_neg hqualne]
  have hchunksne : srs.filterMap specChunk ≠ [] :=
    List.ne_nil_of_mem (List.mem_filterMap.mpr ⟨b0, hb0, hc0⟩)
  have hres0 : b0.results ≠ [] := by
    intro hnil
    rw [hnil] at hr0
    simp at hr0
  have hhas : ¬ (has_results srs = false) := by
    have htrue : has_results srs = true := by
      simp only [has_results, List.any_eq_true]
      exact ⟨b0, hb0, by simp [hres0]⟩
    simp [htrue]
  refine ⟨?_, hctx, ?_⟩
  · simp only [synthesizer_call]
    rw [if_neg hhas, hctx, if_neg hchunksne]
  · intro b hb
    constructor
    · calc (qualHits b).length ≤ (b.results.take 5).length := List.length_filter_le _ _
        _ ≤ 5 := List.length_take_le _ _
    · constructor
      · intro hsome
        have hne : qualHits b ≠ [] := by
          intro hnil
          rw [specChunk, if_pos hnil] at hsome
          simp at hsome
        obtain ⟨r, hr⟩ := List.exists_mem_of_ne_nil _ hne
        rw [qualHits, List.mem_filter] at hr
        refine ⟨r, hr.1, ?_⟩
        have hk := hr.2
        simp only [hitKeep, Bool.or_eq_true, decide_eq_true_eq] at hk
        exact hk
      · rintro ⟨r, hrmem, hrq⟩
        have hk : hitKeep r = true := by
          rcases hrq with h1 | h1 <;> simp [hitKeep, h1]
        have hne : qualHits b ≠ [] :=
          List.ne_nil_of_mem (List.mem_filter.mpr ⟨hrmem, hk⟩)
        rw [specChunk, if_neg hne]
        rfl

/-- Instance of `synthesizer_context_structure` at a single block with
one non-empty hit. -/
theorem synthesizer_context_structure_inst :
    synthesizer_call "Q" [⟨"sq", [⟨"T", "L", "S"⟩]⟩] =
      pathC_call "Q"
        (String.intercalate "\n\n" ([⟨"sq", [⟨"T", "L", "S"⟩]⟩].filterMap specChunk)) :=
  (synthesizer_context_structure "Q" [⟨"sq", [⟨"T", "L", "S"⟩]⟩] (by decide)).1

/-- Claim C6: an empty or whitespace-only question makes the Planner
return the empty sequence without invoking the model; the pipeline then
produces empty subquestions and search results, and the Synthesizer takes
the internal-knowledge fallback path. -/
theorem pipeline_blank_question (plannerLlm : String → String)
    (call : ToolInvocation → Except String (List Hit)) (synthLlm : LlmCall → String)
    (q : String) (h : pyStrip q = "") :
    (planner_node plannerLlm q).calledModel = false ∧
    (run plannerLlm call synthLlm q).subquestions = [] ∧
    (run plannerLlm call synthLlm q).search_results = [] ∧
    synthesizer_call q (run plannerLlm call synthLlm q).search_results = pathA_call q := by
  have hp : planner_node plannerLlm q = ⟨false, []⟩ := by
    simp [planner_node, h]
  refine ⟨by rw [hp], ?_, ?_, ?_⟩ <;>
    simp [run, hp, search_node, synthesizer_call, has_results]

/-- Instance of `pipeline_blank_question` at the question `""` with
concrete oracles. -/
theorem pipeline_blank_question_inst :
    (planner_node (fun s : String => s) "").calledModel = false ∧
    (run (fun s : String => s) (fun _ => Except.ok []) (fun _ => "report")
      "").subquestions = [] ∧
    (run (fun s : String => s) (fun _ => Except.ok []) (fun _ => "report")
      "").search_results = [] ∧
    synthesizer_call "" (run (fun s : String => s) (fun _ => Except.ok [])
      (fun _ => "report") "").search_results = pathA_call "" :=
  pipeline_blank_question _ _ _ "" rfl

/-- Claim C8: the search tool never raises to its caller: it returns the
empty list without a network call when either credential is absent, and
the empty list when the underlying request fails for any reason. -/
theorem google_search_swallows_failures (cfg : SearchConfig)
    (net : String → Int → Except String (List RawItem)) (q : String) (n : Int) :
    ((truthy cfg.apiKey = false ∨ truthy cfg.cseId = false) →
      google_search cfg net q n = ⟨[], false, none⟩) ∧
    (∀ e, net q (clampNum n) = .error e → (google_search cfg net q n).hits = []) := by
  constructor
  · intro h
    simp [google_search, h]
  · intro e he
    by_cases h : truthy cfg.apiKey = false ∨ truthy cfg.cseId = false
    · simp [google_search, h]
    · simp [google_search, h, he]

/-- Instance of `google_search_swallows_failures`: a missing key and a
failing request both produce the empty hit list. -/
theorem google_search_swallows_failures_inst :
    google_search ⟨none, some "cse"⟩ (fun _ _ => Except.ok []) "q" 5 = ⟨[], false, none⟩ ∧
    (google_search ⟨some "key", some "cse"⟩ (fun _ _ => Except.error "http 500")
      "q" 5).hits = [] :=
  ⟨(google_search_swallows_failures ⟨none, some "cse"⟩ (fun _ _ => Except.ok [])
      "q" 5).1 (Or.inl rfl),
   (google_search_swallows_failures ⟨some "key", some "cse"⟩
      (fun _ _ => Except.error "http 500") "q" 5).2 "http 500" rfl⟩

/-- Claim C9: the result count sent with a search request equals
max(1, min(n, 10)) and lies in the interval from 1 to 10, and the
Searcher requests exactly 5 hits per sub-question. -/
theorem search_request_count_clamped (cfg : SearchConfig)
    (net : String → Int → Except String (List RawItem)) (q : String) (n m : Int) :
    ((google_search cfg net q n).sentNum = some m →
      m = max 1 (min n 10) ∧ 1 ≤ m ∧ m ≤ 10) ∧
    (∀ (call : ToolInvocation → Except String (List Hit)) (subqs : List String),
      ∀ inv ∈ search_invocations call subqs, inv.num_results = 5) := by
  constructor
  · intro hsent
    have hm : m = clampNum n := by
      by_cases h : truthy cfg.apiKey = false ∨ truthy cfg.cseId = false
      · simp [google_search, h] at hsent
      · cases hnet : net q (clampNum n) <;>
          simp [google_search, h, hnet] at hsent <;> exact hsent.symm
    refine ⟨hm, ?_, ?_⟩
    · rw [hm, clampNum]
      exact le_max_left 1 _
    · rw [hm, clampNum]
      exact max_le (by norm_num) (min_le_right n 10)
  · intro call subqs inv hinv
    rw [search_invocations, List.map_map, List.mem_map] at hinv
    obtain ⟨sq, hsq, heq⟩ := hinv
    rw [← heq]
    simp [Function.comp_def, search_sq_fst]

/-- Instance of `search_request_count_clamped` at a requested count of 7
and the concrete invocation issued for one sub-question. -/
theorem search_request_count_clamped_inst :
    (7 : Int) = max 1 (min 7 10) ∧ (1 : Int) ≤ 7 ∧ (7 : Int) ≤ 10 ∧
    (⟨"alpha", 5⟩ : ToolInvocation).num_results = 5 := by
  have h := search_request_count_clamped ⟨some "key", some "cse"⟩
    (fun _ _ => Except.ok []) "q" 7 7
  have h1 := h.1 (by decide)
  exact ⟨h1.1, h1.2.1, h1.2.2,
    h.2 (fun _ => Except.ok []) ["alpha"] ⟨"alpha", 5⟩ (by decide)⟩

end Atlas
